import Mathlib

/-!
Shallow embedding of `sixtyfps_runtime/interpreter/api.rs`: the dynamic
`Value` type of the SixtyFPS interpreter, its `PartialEq` implementation,
the native-type conversion layer (the expansions of
`declare_value_conversion`, `declare_value_struct_conversion` and
`declare_value_enum_conversion`), the runtime `Struct` record, and the
component-instance API surface (`get_property`, `set_property`,
`set_callback`, `invoke_callback`, and the weak handle operations
`upgrade`/`unwrap`).

Modelling choices, stated once:
* Rust `f64` values are modelled as rationals; the casts `u64 as f64`
  etc. are modelled by explicit round-to-nearest-even to a 53-bit
  significand (`rnd53`), and float-to-integer `as` casts by
  truncate-toward-zero with saturation, which is their Rust semantics.
* `HashMap<String, Value>` is modelled as a key-sorted association list,
  so that structural list equality coincides with hash-map equality
  (same key set, equal values).
* Types of the corelib crate (not part of the file under study) are
  modelled as small carrier types with decidable equality.
-/

namespace SixtyFPS

/-- The corelib string type `SharedString`, modelled as a plain string. -/
abbrev SharedString := String

/-- Modelled from the spec: the corelib `ImageReference` type is external
to the file under study; an image reference payload with decidable
equality. -/
structure ImageReference where
  ref : String
  deriving DecidableEq

/-- Modelled from the spec: the corelib `Color` type, an abstract color
payload with decidable equality. -/
structure Color where
  argb : Nat
  deriving DecidableEq

/-- Modelled from the spec: the corelib `Brush` type; it has a
`SolidColor` variant (used by the `Color` conversion) and at least one
other kind of paint. -/
inductive Brush where
  | SolidColor (c : Color)
  | OtherBrush (data : Nat)
  deriving DecidableEq

/-- Modelled from the spec: the corelib `PathData` payload (path
geometry), abstract with decidable equality. -/
structure PathData where
  d : Nat
  deriving DecidableEq

/-- Modelled from the spec: the corelib `EasingCurve` descriptor,
abstract with decidable equality. -/
structure EasingCurve where
  tag : Nat
  deriving DecidableEq

/-- The dynamic `Value` enum of the interpreter (api.rs lines 36-65).
The `Rc<dyn Model>` payload of the `Model` variant is modelled as an allocation
identity (the pointer) together with the data the allocation holds. -/
inductive Value where
  | Void
  | Number (n : Rat)
  | String (s : SharedString)
  | Bool (b : Bool)
  | Image (i : ImageReference)
  | Array (a : List Value)
  | Model (id : Nat) (contents : List Value)
  | Struct (s : List (SharedString × Value))
  | Brush (b : Brush)
  | PathElements (p : PathData)
  | EasingCurve (c : EasingCurve)
  | EnumerationValue (name : SharedString) (member : SharedString)

/-- The runtime record type `Struct` (a wrapper around
`HashMap<String, Value>`), modelled as a key-sorted association list. -/
abbrev Struct := List (SharedString × Value)

mutual

/-- The `PartialEq for Value` implementation (api.rs lines 73-92):
equality holds only within one variant; the `Model` variant compares by
`Rc::ptr_eq`, i.e. by allocation identity, never by contents. -/
def valueEq : Value → Value → Bool
  | .Void, .Void => true
  | .Number a, .Number b => a == b
  | .String a, .String b => a == b
  | .Bool a, .Bool b => a == b
  | .Image a, .Image b => a == b
  | .Array a, .Array b => valueListEq a b
  | .Model i _, .Model j _ => i == j
  | .Struct a, .Struct b => structFieldsEq a b
  | .Brush a, .Brush b => a == b
  | .PathElements a, .PathElements b => a == b
  | .EasingCurve a, .EasingCurve b => a == b
  | .EnumerationValue n1 v1, .EnumerationValue n2 v2 => n1 == n2 && v1 == v2
  | _, _ => false

/-- Element-wise equality of value sequences (the derived `PartialEq`
of the array payload). -/
def valueListEq : List Value → List Value → Bool
  | [], [] => true
  | x :: xs, y :: ys => valueEq x y && valueListEq xs ys
  | _, _ => false

/-- Equality of the sorted field lists backing two `Struct`s (the
derived `PartialEq` of `HashMap<String, Value>`; on key-sorted unique
lists it is pointwise equality). -/
def structFieldsEq : List (SharedString × Value) → List (SharedString × Value) → Bool
  | [], [] => true
  | (k1, v1) :: r1, (k2, v2) :: r2 => k1 == k2 && valueEq v1 v2 && structFieldsEq r1 r2
  | _, _ => false

end

/-- Discriminant of a `Value`: which of the twelve variants it is. -/
def variantIdx : Value → Nat
  | .Void => 0
  | .Number _ => 1
  | .String _ => 2
  | .Bool _ => 3
  | .Image _ => 4
  | .Array _ => 5
  | .Model _ _ => 6
  | .Struct _ => 7
  | .Brush _ => 8
  | .PathElements _ => 9
  | .EasingCurve _ => 10
  | .EnumerationValue _ _ => 11

/-- `Struct::get_property` (api.rs lines 302-304): the stored value for
the key, or `none` when the key is unset. -/
def Struct.get_property : Struct → SharedString → Option Value
  | [], _ => none
  | (k, w) :: rest, n => if n = k then some w else Struct.get_property rest n

/-- Lexicographic order on the character data of two strings: the key
order used by the sorted association-list model of the hash map. -/
def keyLt (a b : SharedString) : Bool := decide (a.data < b.data)

/-- `Struct::set_property` (api.rs lines 306-308): insert-or-overwrite;
the hash-map insert is modelled as sorted insertion so that the key set
stays unique and sorted. -/
def Struct.set_property : Struct → SharedString → Value → Struct
  | [], n, v => [(n, v)]
  | (k, w) :: rest, n, v =>
    if n = k then (n, v) :: rest
    else if keyLt n k then (n, v) :: (k, w) :: rest
    else (k, w) :: Struct.set_property rest n v

/-! ## The float cast model -/

/-- Fuel-driven floor of the base-2 logarithm (structural recursion on
the fuel, so that it computes inside the kernel). -/
def log2Aux : Nat → Nat → Nat
  | 0, _ => 0
  | fuel + 1, m => if m < 2 then 0 else log2Aux fuel (m / 2) + 1

/-- Floor of the base-2 logarithm of a positive natural number. -/
def log2floor (n : Nat) : Nat := log2Aux n n

/-- Round-to-nearest, ties-to-even, of a natural number to a 53-bit
significand: the value of `n as f64` for an unsigned integer `n` (every
result below 2^1024 is finite, which covers all 64-bit integers). -/
def rnd53 (n : Nat) : Nat :=
  if n < 2 ^ 53 then n
  else
    let e := log2floor n - 52
    let q := n / 2 ^ e
    let r := n % 2 ^ e
    let half := 2 ^ (e - 1)
    if r < half then q * 2 ^ e
    else if half < r then (q + 1) * 2 ^ e
    else if q % 2 = 0 then q * 2 ^ e else (q + 1) * 2 ^ e

/-- The value of `i as f64` for a signed integer `i`: round the
magnitude, keep the sign (binary floats are sign-magnitude). -/
def rnd53Int (i : Int) : Int :=
  if 0 ≤ i then (rnd53 i.toNat : Int) else -(rnd53 (-i).toNat : Int)

/-- Truncation toward zero of a float value (Rust float-to-integer `as`
cast, before saturation). -/
def f64trunc (x : Rat) : Int :=
  if 0 ≤ x then ⌊x⌋ else ⌈x⌉

/-- `x as u32`: truncate toward zero and saturate to `[0, 2^32-1]`. -/
def f64toU32 (x : Rat) : Nat :=
  min (max (f64trunc x) 0).toNat (2 ^ 32 - 1)

/-- `x as u64`: truncate toward zero and saturate to `[0, 2^64-1]`. -/
def f64toU64 (x : Rat) : Nat :=
  min (max (f64trunc x) 0).toNat (2 ^ 64 - 1)

/-- `x as i32`: truncate toward zero and saturate to
`[-2^31, 2^31-1]`. -/
def f64toI32 (x : Rat) : Int :=
  max (min (f64trunc x) (2 ^ 31 - 1)) (-(2 ^ 31))

/-- `x as i64`: truncate toward zero and saturate to
`[-2^63, 2^63-1]`. -/
def f64toI64 (x : Rat) : Int :=
  max (min (f64trunc x) (2 ^ 63 - 1)) (-(2 ^ 63))

/-! ## The conversion layer: `declare_value_conversion` expansions

Each supported native type gets a `From<T> for Value` (here `from...`)
and a `TryInto<T> for Value` with `Error = Value` (here `tryInto...`,
returning `Except Value T`): on the matching variant the payload is
cast, on any other variant the original value is returned as the
error (api.rs lines 121-149). -/

/-- `From<u32> for Value`: `Value::Number(v as f64)`. -/
def fromU32 (v : Nat) : Value := .Number ((rnd53 v : Nat) : Rat)

/-- `TryInto<u32> for Value`: `Ok(x as u32)` on `Number`, else the
original value as error. -/
def tryIntoU32 : Value → Except Value Nat
  | .Number x => .ok (f64toU32 x)
  | v => .error v

/-- `From<u64> for Value`: `Value::Number(v as f64)`. -/
def fromU64 (v : Nat) : Value := .Number ((rnd53 v : Nat) : Rat)

/-- `TryInto<u64> for Value`: `Ok(x as u64)` on `Number`, else the
original value as error. -/
def tryIntoU64 : Value → Except Value Nat
  | .Number x => .ok (f64toU64 x)
  | v => .error v

/-- `From<i32> for Value`: `Value::Number(v as f64)`. -/
def fromI32 (v : Int) : Value := .Number ((rnd53Int v : Int) : Rat)

/-- `TryInto<i32> for Value`: `Ok(x as i32)` on `Number`, else the
original value as error. -/
def tryIntoI32 : Value → Except Value Int
  | .Number x => .ok (f64toI32 x)
  | v => .error v

/-- `From<i64> for Value`: `Value::Number(v as f64)`. -/
def fromI64 (v : Int) : Value := .Number ((rnd53Int v : Int) : Rat)

/-- `TryInto<i64> for Value`: `Ok(x as i64)` on `Number`, else the
original value as error. -/
def tryIntoI64 : Value → Except Value Int
  | .Number x => .ok (f64toI64 x)
  | v => .error v

/-- `From<usize> for Value`: on the 64-bit targets modelled here,
`usize as f64` behaves as `u64 as f64`. -/
def fromUSize (v : Nat) : Value := fromU64 v

/-- `TryInto<usize> for Value`, modelled as the 64-bit unsigned cast. -/
def tryIntoUSize (v : Value) : Except Value Nat := tryIntoU64 v

/-- `From<isize> for Value`, modelled as the 64-bit signed cast. -/
def fromISize (v : Int) : Value := fromI64 v

/-- `TryInto<isize> for Value`, modelled as the 64-bit signed cast. -/
def tryIntoISize (v : Value) : Except Value Int := tryIntoI64 v

/-- `From<f64> for Value`: `Value::Number(v as f64)` is the identity on
the payload. -/
def fromF64 (v : Rat) : Value := .Number v

/-- `TryInto<f64> for Value`: `Ok(x as f64)` is the identity on the
payload; any other variant returns the original value as error. -/
def tryIntoF64 : Value → Except Value Rat
  | .Number x => .ok x
  | v => .error v

/-- `From<SharedString> for Value`. -/
def fromSharedString (v : SharedString) : Value := .String v

/-- `TryInto<SharedString> for Value`. -/
def tryIntoSharedString : Value → Except Value SharedString
  | .String x => .ok x
  | v => .error v

/-- `From<bool> for Value`. -/
def fromBool (v : Bool) : Value := .Bool v

/-- `TryInto<bool> for Value`. -/
def tryIntoBool : Value → Except Value Bool
  | .Bool x => .ok x
  | v => .error v

/-- `From<ImageReference> for Value`. -/
def fromImageReference (v : ImageReference) : Value := .Image v

/-- `TryInto<ImageReference> for Value`. -/
def tryIntoImageReference : Value → Except Value ImageReference
  | .Image x => .ok x
  | v => .error v

/-- `From<Struct> for Value`. -/
def fromStruct (v : Struct) : Value := .Struct v

/-- `TryInto<Struct> for Value`. -/
def tryIntoStruct : Value → Except Value Struct
  | .Struct x => .ok x
  | v => .error v

/-- `From<Brush> for Value`. -/
def fromBrush (v : Brush) : Value := .Brush v

/-- `TryInto<Brush> for Value`. -/
def tryIntoBrush : Value → Except Value Brush
  | .Brush x => .ok x
  | v => .error v

/-- `From<PathData> for Value`. -/
def fromPathData (v : PathData) : Value := .PathElements v

/-- `TryInto<PathData> for Value`. -/
def tryIntoPathData : Value → Except Value PathData
  | .PathElements x => .ok x
  | v => .error v

/-- `From<EasingCurve> for Value`. -/
def fromEasingCurve (v : EasingCurve) : Value := .EasingCurve v

/-- `TryInto<EasingCurve> for Value`. -/
def tryIntoEasingCurve : Value → Except Value EasingCurve
  | .EasingCurve x => .ok x
  | v => .error v

/-- `From<Vec<Value>> for Value` (api.rs lines 323-327): collect the
elements into the array variant. -/
def fromVec (a : List Value) : Value := .Array a

/-- `TryInto<Vec<Value>> for Value` (api.rs lines 328-337): the array
elements, or the original value back as error. -/
def tryIntoVec : Value → Except Value (List Value)
  | .Array a => .ok a
  | v => .error v

/-- `From<Color> for Value` (api.rs lines 258-263): wrap in a solid
color brush. -/
def fromColor (c : Color) : Value := .Brush (.SolidColor c)

/-- `TryInto<Color> for Value` (api.rs lines 264-273): only a solid
color brush converts; anything else returns the original value as
error. -/
def tryIntoColor : Value → Except Value Color
  | .Brush (.SolidColor c) => .ok c
  | v => .error v

/-- `From<()> for Value` (api.rs lines 244-249): the unit value becomes
`Value::Void`. -/
def fromUnit (_ : Unit) : Value := .Void

/-- `TryInto<()> for Value` (api.rs lines 250-256): `Ok(())`
unconditionally, whatever the variant; the error type is `()`. -/
def tryIntoUnit (_ : Value) : Except Unit Unit := .ok ()

/-- Modelled from the spec: the corelib `Instant` timestamp, a 64-bit
unsigned tick count (its inner type is external to the file under
study). -/
structure Instant where
  ticks : Nat
  deriving DecidableEq

/-- `From<Instant> for Value` (api.rs lines 229-233):
`Value::Number(value.0 as f64)`. -/
def fromInstant (v : Instant) : Value := .Number ((rnd53 v.ticks : Nat) : Rat)

/-- `TryInto<Instant> for Value` (api.rs lines 234-242): a number casts
back to the tick count; the error type is `()`. -/
def tryIntoInstant : Value → Except Unit Instant
  | .Number x => .ok ⟨f64toU64 x⟩
  | _ => .error ()

/-! ## `declare_value_struct_conversion` expansions

The macro (api.rs lines 152-176) builds the record value by
`set_property`-ing each declared field, and converts back by looking up
every declared field and converting it, failing as a whole (error type
`()`) when any field is missing or unconvertible.  Two of its four
instantiations are embedded; their field sets are modelled from the
spec (the corelib types are external to the file under study). -/

/-- Modelled from the spec: `StandardListViewItem`, a corelib record
with a single text field. -/
structure StandardListViewItem where
  text : SharedString
  deriving DecidableEq

/-- `From<StandardListViewItem> for Value`: insert each field of the
record under its declared name into a fresh `Struct`. -/
def fromStandardListViewItem (v : StandardListViewItem) : Value :=
  .Struct (Struct.set_property [] "text" (fromSharedString v.text))

/-- `TryInto<StandardListViewItem> for Value`: requires the `text`
field to be present and string-convertible, else fails with `()`. -/
def tryIntoStandardListViewItem (v : Value) : Except Unit StandardListViewItem :=
  match v with
  | .Struct x =>
    match Struct.get_property x "text" with
    | none => .error ()
    | some fv =>
      match tryIntoSharedString fv with
      | .ok t => .ok ⟨t⟩
      | .error _ => .error ()
  | _ => .error ()

/-- Modelled from the spec: `KeyboardModifiers`, a corelib record with
the four boolean fields `control`, `alt`, `shift`, `meta`. -/
structure KeyboardModifiers where
  control : Bool
  alt : Bool
  shift : Bool
  meta : Bool
  deriving DecidableEq

/-- `From<KeyboardModifiers> for Value`: insert the four fields in
declaration order into a fresh `Struct`. -/
def fromKeyboardModifiers (v : KeyboardModifiers) : Value :=
  .Struct
    (Struct.set_property
      (Struct.set_property
        (Struct.set_property
          (Struct.set_property [] "control" (fromBool v.control))
          "alt" (fromBool v.alt))
        "shift" (fromBool v.shift))
      "meta" (fromBool v.meta))

/-- `TryInto<KeyboardModifiers> for Value`: every one of the four
fields must be present and bool-convertible, else the whole conversion
fails with `()` and no partial record is produced. -/
def tryIntoKeyboardModifiers (v : Value) : Except Unit KeyboardModifiers :=
  match v with
  | .Struct x =>
    match Struct.get_property x "control" with
    | none => .error ()
    | some cv =>
      match tryIntoBool cv with
      | .error _ => .error ()
      | .ok c =>
        match Struct.get_property x "alt" with
        | none => .error ()
        | some av =>
          match tryIntoBool av with
          | .error _ => .error ()
          | .ok a =>
            match Struct.get_property x "shift" with
            | none => .error ()
            | some sv =>
              match tryIntoBool sv with
              | .error _ => .error ()
              | .ok s =>
                match Struct.get_property x "meta" with
                | none => .error ()
                | some mv =>
                  match tryIntoBool mv with
                  | .error _ => .error ()
                  | .ok m => .ok ⟨c, a, s, m⟩
  | _ => .error ()

/-! ## `declare_value_enum_conversion` expansions

The macro (api.rs lines 187-211) renders a native enumeration member to
`Value::EnumerationValue(type_name, member_text)` and converts back only
when the stored type name is exactly the expected one and the member
text parses (error type `()`). -/

/-- Modelled from the spec: the corelib enumeration
`TextHorizontalAlignment` with members rendered `align_left`,
`align_center`, `align_right` (the doc comment of the `Value` enum
names `TextHorizontalAlignment::align_center`). -/
inductive TextHorizontalAlignment where
  | align_left
  | align_center
  | align_right
  deriving DecidableEq

/-- Modelled from the spec: the derived `Display` of the enumeration,
the textual rendering of each member. -/
def TextHorizontalAlignment.display : TextHorizontalAlignment → SharedString
  | .align_left => "align_left"
  | .align_center => "align_center"
  | .align_right => "align_right"

/-- Modelled from the spec: the derived `FromStr` of the enumeration,
parsing exactly the rendered member names. -/
def TextHorizontalAlignment.fromStr (s : SharedString) : Option TextHorizontalAlignment :=
  if s = "align_left" then some .align_left
  else if s = "align_center" then some .align_center
  else if s = "align_right" then some .align_right
  else none

/-- `From<TextHorizontalAlignment> for Value`: pair the declared
enumeration-type name with the textual rendering of the member. -/
def fromTextHorizontalAlignment (v : TextHorizontalAlignment) : Value :=
  .EnumerationValue "TextHorizontalAlignment" v.display

/-- `TryInto<TextHorizontalAlignment> for Value`: the stored type name
must equal the expected one exactly, then the member text must parse;
else the conversion fails with `()`. -/
def tryIntoTextHorizontalAlignment (v : Value) : Except Unit TextHorizontalAlignment :=
  match v with
  | .EnumerationValue enumeration value =>
    if enumeration ≠ "TextHorizontalAlignment" then .error ()
    else
      match TextHorizontalAlignment.fromStr value with
      | some m => .ok m
      | none => .error ()
  | _ => .error ()

/-! ## The component-instance API surface -/

/-- Outcome of an API call that the source can complete normally, fail
with a typed error, or abort fatally (a Rust panic, e.g. from the
`todo!` macro). -/
inductive PanicOr (ε : Type) (α : Type) where
  | ok (a : α)
  | err (e : ε)
  | panic (msg : SharedString)

/-- Error enum returned by `ComponentInstance::get_property` (api.rs
lines 526-530). -/
inductive GetPropertyError where
  | NoSuchProperty
  deriving DecidableEq

/-- Error enum returned by `ComponentInstance::set_property` (api.rs
lines 532-539). -/
inductive SetPropertyError where
  | NoSuchProperty
  | WrongType
  deriving DecidableEq

/-- Error enum returned by `ComponentInstance::set_callback` (api.rs
lines 541-546). -/
inductive SetCallbackError where
  | NoSuchCallback
  deriving DecidableEq

/-- Error enum returned by `ComponentInstance::invoke_callback` (api.rs
lines 548-552). -/
inductive CallCallbackError where
  | NoSuchCallback
  deriving DecidableEq

/-- The variant a declared property type admits (the statically
declared type of a public property). -/
inductive ValueTy where
  | VoidTy
  | NumberTy
  | StringTy
  | BoolTy
  | ImageTy
  | ArrayTy
  | ModelTy
  | StructTy
  | BrushTy
  | PathTy
  | EasingTy
  | EnumTy
  deriving DecidableEq

/-- Whether the variant of a dynamic value satisfies a declared property
type. -/
def variantMatches : ValueTy → Value → Bool
  | .VoidTy, .Void => true
  | .NumberTy, .Number _ => true
  | .StringTy, .String _ => true
  | .BoolTy, .Bool _ => true
  | .ImageTy, .Image _ => true
  | .ArrayTy, .Array _ => true
  | .ModelTy, .Model _ _ => true
  | .StructTy, .Struct _ => true
  | .BrushTy, .Brush _ => true
  | .PathTy, .PathElements _ => true
  | .EasingTy, .EasingCurve _ => true
  | .EnumTy, .EnumerationValue _ _ => true
  | _, _ => false

/-- Modelled from the spec: the compiled `ComponentDescription` (the
`dynamic_component` collaborator is external to the file under study);
an immutable table of the declared public properties with their types,
and of the declared callback names. -/
structure ComponentDescription where
  props : List (SharedString × ValueTy)
  callbacks : List SharedString

/-- Modelled from the spec: the mutable state of one live component
instance: the current property values and the registered callback
handlers. -/
structure InstanceState where
  propValues : List (SharedString × Value)
  handlers : List (SharedString × (List Value → Value))

/-- Look up a name in an association list (exact, case-sensitive string
match, as all name-keyed lookups in this subsystem). -/
def assocLookup {α : Type} : List (SharedString × α) → SharedString → Option α
  | [], _ => none
  | (k, w) :: rest, n => if n = k then some w else assocLookup rest n

/-- Overwrite-or-append a name in an association list. -/
def assocUpdate {α : Type} : List (SharedString × α) → SharedString → α → List (SharedString × α)
  | [], n, v => [(n, v)]
  | (k, w) :: rest, n, v =>
    if n = k then (n, v) :: rest else (k, w) :: assocUpdate rest n v

/-- Modelled from the spec: the `get_property` primitive of the description.
It fails (with the unit error of the primitive layer) exactly when the
name is not among the declared public properties. -/
def descGetProperty (desc : ComponentDescription) (st : InstanceState)
    (name : SharedString) : Except Unit Value :=
  match assocLookup desc.props name with
  | none => .error ()
  | some _ => .ok ((assocLookup st.propValues name).getD .Void)

/-- Modelled from the spec: the `set_property` primitive of the description.
It fails (unit error) when the name is undeclared or the variant of the value cannot satisfy the declared property type; on success the
stored value is replaced. -/
def descSetProperty (desc : ComponentDescription) (st : InstanceState)
    (name : SharedString) (value : Value) : Except Unit InstanceState :=
  match assocLookup desc.props name with
  | none => .error ()
  | some ty =>
    if variantMatches ty value then
      .ok { st with propValues := assocUpdate st.propValues name value }
    else .error ()

/-- Modelled from the spec: the `set_callback_handler`
primitive.  It fails (unit error) when no callback with the name is
declared; on success the handler replaces any previous one. -/
def descSetCallbackHandler (desc : ComponentDescription) (st : InstanceState)
    (name : SharedString) (handler : List Value → Value) : Except Unit InstanceState :=
  if name ∈ desc.callbacks then
    .ok { st with handlers := assocUpdate st.handlers name handler }
  else .error ()

/-- Modelled from the spec: the `invoke_callback`
primitive.  It fails (unit error) when no callback with the name is
declared; otherwise the registered handler runs synchronously (or the
default behaviour produces the void value). -/
def descInvokeCallback (desc : ComponentDescription) (st : InstanceState)
    (name : SharedString) (args : List Value) : Except Unit Value :=
  if name ∈ desc.callbacks then
    match assocLookup st.handlers name with
    | some handler => .ok (handler args)
    | none => .ok .Void
  else .error ()

/-- `ComponentInstance::get_property` (api.rs lines 421-427): delegate
to the description primitive and map its unit error to
`GetPropertyError::NoSuchProperty`. -/
def ComponentInstance.get_property (desc : ComponentDescription)
    (st : InstanceState) (name : SharedString) : Except GetPropertyError Value :=
  match descGetProperty desc st name with
  | .ok v => .ok v
  | .error _ => .error .NoSuchProperty

/-- `ComponentInstance::set_property` (api.rs lines 430-436): delegate
to the description primitive; its error is mapped through
`todo!("set_property fails to return the right error type")`, i.e. the
failing path aborts with a panic instead of producing a
`SetPropertyError`.  The pair returns the instance state alongside the
outcome. -/
def ComponentInstance.set_property (desc : ComponentDescription)
    (st : InstanceState) (name : SharedString) (value : Value) :
    PanicOr SetPropertyError Unit × InstanceState :=
  match descSetProperty desc st name value with
  | .ok st2 => (.ok (), st2)
  | .error _ =>
    (.panic "not yet implemented: set_property fails to return the right error type", st)

/-- `ComponentInstance::set_callback` (api.rs lines 440-450): delegate
to the description primitive and map its unit error to
`SetCallbackError::NoSuchCallback`; a failing call leaves the state
untouched. -/
def ComponentInstance.set_callback (desc : ComponentDescription)
    (st : InstanceState) (name : SharedString) (callback : List Value → Value) :
    Except SetCallbackError Unit × InstanceState :=
  match descSetCallbackHandler desc st name callback with
  | .ok st2 => (.ok (), st2)
  | .error _ => (.error .NoSuchCallback, st)

/-- `ComponentInstance::invoke_callback` (api.rs lines 453-457):
delegate to the description primitive; its error is mapped through a
bare `todo!()`, i.e. the failing path aborts with a panic instead of
producing a `CallCallbackError`. -/
def ComponentInstance.invoke_callback (desc : ComponentDescription)
    (st : InstanceState) (name : SharedString) (args : List Value) :
    PanicOr CallCallbackError Value :=
  match descInvokeCallback desc st name args with
  | .ok v => .ok v
  | .error _ => .panic "not yet implemented"

/-! ## The weak instance handle -/

/-- Modelled from the spec: the shared control block of the
reference-counted instance allocation (`vtable::VRc`/`VWeak` are
external to the file under study): the identity of the instance and the
number of strong handles currently alive. -/
structure ControlBlock where
  id : Nat
  strong : Nat
  deriving DecidableEq

/-- `WeakComponentInstance::upgrade` (api.rs lines 513-515): a new
strong handle to the same instance when at least one strong handle
still exists, else `none`. -/
def WeakComponentInstance.upgrade (c : ControlBlock) : Option ControlBlock :=
  if 0 < c.strong then some { c with strong := c.strong + 1 } else none

/-- `WeakComponentInstance::unwrap` (api.rs lines 520-522):
`self.upgrade().unwrap()`, which aborts with the standard
`Option::unwrap` panic when the upgrade fails. -/
def WeakComponentInstance.unwrap (c : ControlBlock) : PanicOr Empty ControlBlock :=
  match WeakComponentInstance.upgrade c with
  | some h => .ok h
  | none => .panic "called Option::unwrap on a None value"

/-! ## The remaining record and enumeration instantiations

The other two `declare_value_struct_conversion` instantiations of
api.rs lines 178-181: `StateInfo` (whose `change_time` field goes
through the `Instant` conversion of api.rs lines 229-242) and
`KeyEvent` (whose `event_type` field goes through a
`declare_value_enum_conversion` instantiation and whose `modifiers`
field is itself a record conversion). -/

/-- Modelled from the spec: the corelib `KeyEventType` enumeration (its
member set is external to the file under study), with members rendered
by the derived `Display`. -/
inductive KeyEventType where
  | KeyPressed
  | KeyReleased
  deriving DecidableEq

/-- Modelled from the spec: the derived `Display` of `KeyEventType`. -/
def KeyEventType.display : KeyEventType → SharedString
  | .KeyPressed => "KeyPressed"
  | .KeyReleased => "KeyReleased"

/-- Modelled from the spec: the derived `FromStr` of `KeyEventType`,
parsing exactly the rendered member names. -/
def KeyEventType.fromStr (s : SharedString) : Option KeyEventType :=
  if s = "KeyPressed" then some .KeyPressed
  else if s = "KeyReleased" then some .KeyReleased
  else none

/-- `From<KeyEventType> for Value`
(`declare_value_enum_conversion`, api.rs line 225). -/
def fromKeyEventType (v : KeyEventType) : Value :=
  .EnumerationValue "KeyEventType" v.display

/-- `TryInto<KeyEventType> for Value`: exact type-name check, then
parse-or-fail, with unit error. -/
def tryIntoKeyEventType (v : Value) : Except Unit KeyEventType :=
  match v with
  | .EnumerationValue enumeration value =>
    if enumeration ≠ "KeyEventType" then .error ()
    else
      match KeyEventType.fromStr value with
      | some m => .ok m
      | none => .error ()
  | _ => .error ()

/-- Modelled from the spec: `StateInfo`, a corelib record with two
32-bit signed state fields and a `change_time` timestamp. -/
structure StateInfo where
  current_state : Int
  previous_state : Int
  change_time : Instant
  deriving DecidableEq

/-- `From<StateInfo> for Value` (api.rs line 179): insert the three
fields in declaration order; `change_time` goes through the `Instant`
conversion. -/
def fromStateInfo (v : StateInfo) : Value :=
  .Struct
    (Struct.set_property
      (Struct.set_property
        (Struct.set_property [] "current_state" (fromI32 v.current_state))
        "previous_state" (fromI32 v.previous_state))
      "change_time" (fromInstant v.change_time))

/-- `TryInto<StateInfo> for Value`: every one of the three fields must
be present and convertible, else the whole conversion fails with `()`
and no partial record is produced. -/
def tryIntoStateInfo (v : Value) : Except Unit StateInfo :=
  match v with
  | .Struct x =>
    match Struct.get_property x "current_state" with
    | none => .error ()
    | some cv =>
      match tryIntoI32 cv with
      | .error _ => .error ()
      | .ok c =>
        match Struct.get_property x "previous_state" with
        | none => .error ()
        | some pv =>
          match tryIntoI32 pv with
          | .error _ => .error ()
          | .ok p =>
            match Struct.get_property x "change_time" with
            | none => .error ()
            | some tv =>
              match tryIntoInstant tv with
              | .error _ => .error ()
              | .ok t => .ok ⟨c, p, t⟩
  | _ => .error ()

/-- Modelled from the spec: `KeyEvent`, a corelib record with the event
type, the key text, and the keyboard modifiers. -/
structure KeyEvent where
  event_type : KeyEventType
  text : SharedString
  modifiers : KeyboardModifiers
  deriving DecidableEq

/-- `From<KeyEvent> for Value` (api.rs line 181): insert the three
fields in declaration order; `modifiers` is itself a record
conversion. -/
def fromKeyEvent (v : KeyEvent) : Value :=
  .Struct
    (Struct.set_property
      (Struct.set_property
        (Struct.set_property [] "event_type" (fromKeyEventType v.event_type))
        "text" (fromSharedString v.text))
      "modifiers" (fromKeyboardModifiers v.modifiers))

/-- `TryInto<KeyEvent> for Value`: every one of the three fields must
be present and convertible, else the whole conversion fails with `()`
and no partial record is produced. -/
def tryIntoKeyEvent (v : Value) : Except Unit KeyEvent :=
  match v with
  | .Struct x =>
    match Struct.get_property x "event_type" with
    | none => .error ()
    | some ev =>
      match tryIntoKeyEventType ev with
      | .error _ => .error ()
      | .ok e =>
        match Struct.get_property x "text" with
        | none => .error ()
        | some tv =>
          match tryIntoSharedString tv with
          | .error _ => .error ()
          | .ok t =>
            match Struct.get_property x "modifiers" with
            | none => .error ()
            | some mv =>
              match tryIntoKeyboardModifiers mv with
              | .error _ => .error ()
              | .ok m => .ok ⟨e, t, m⟩
  | _ => .error ()

/-! ## Theorems -/

/-- C10: converting any dynamic value to the native unit type always
succeeds and returns the unit value, whatever the variant, and the unit
back-conversion is the only conversion in the layer that cannot fail on
a variant mismatch: every other embedded back-conversion fails on the
`Void` variant (or, for the color conversion, on a non-solid brush). -/
theorem C10_unit_backconversion_total :
    (∀ v : Value, tryIntoUnit v = .ok ()) ∧
    tryIntoU32 .Void = .error .Void ∧
    tryIntoU64 .Void = .error .Void ∧
    tryIntoI32 .Void = .error .Void ∧
    tryIntoI64 .Void = .error .Void ∧
    tryIntoUSize .Void = .error .Void ∧
    tryIntoISize .Void = .error .Void ∧
    tryIntoF64 .Void = .error .Void ∧
    tryIntoSharedString .Void = .error .Void ∧
    tryIntoBool .Void = .error .Void ∧
    tryIntoImageReference .Void = .error .Void ∧
    tryIntoStruct .Void = .error .Void ∧
    tryIntoBrush .Void = .error .Void ∧
    tryIntoPathData .Void = .error .Void ∧
    tryIntoEasingCurve .Void = .error .Void ∧
    tryIntoVec .Void = .error .Void ∧
    tryIntoColor .Void = .error .Void ∧
    tryIntoColor (.Brush (.OtherBrush 0)) = .error (.Brush (.OtherBrush 0)) ∧
    tryIntoInstant .Void = .error () ∧
    tryIntoStandardListViewItem .Void = .error () ∧
    tryIntoKeyboardModifiers .Void = .error () ∧
    tryIntoTextHorizontalAlignment .Void = .error () ∧
    tryIntoKeyEventType .Void = .error () ∧
    tryIntoStateInfo .Void = .error () ∧
    tryIntoKeyEvent .Void = .error () :=
  ⟨fun _ => rfl, rfl, rfl, rfl, rfl, rfl, rfl, rfl, rfl, rfl, rfl, rfl, rfl, rfl,
   rfl, rfl, rfl, rfl, rfl, rfl, rfl, rfl, rfl, rfl, rfl⟩

/-- C6: equality of two dynamic values of different variants is always
false (in particular `Number 0` and `Bool false` compare unequal);
within one variant the payloads are compared, except that two `Model`
values compare equal exactly when they are the identical shared
allocation, never by contents. -/
theorem C6_partialeq_variants_model_identity :
    (∀ a b : Value, variantIdx a ≠ variantIdx b → valueEq a b = false) ∧
    (∀ (i : Nat) (c : List Value) (j : Nat) (d : List Value),
      valueEq (.Model i c) (.Model j d) = (i == j)) ∧
    valueEq (.Model 0 [.Number 1]) (.Model 0 []) = true ∧
    valueEq (.Model 0 []) (.Model 1 []) = false ∧
    valueEq (.Number 0) (.Bool false) = false ∧
    (∀ x y : Rat, valueEq (.Number x) (.Number y) = (x == y)) ∧
    (∀ x y : SharedString, valueEq (.String x) (.String y) = (x == y)) ∧
    (∀ x y : Bool, valueEq (.Bool x) (.Bool y) = (x == y)) ∧
    (∀ n1 v1 n2 v2 : SharedString,
      valueEq (.EnumerationValue n1 v1) (.EnumerationValue n2 v2) = (n1 == n2 && v1 == v2)) := by
  refine ⟨?_, fun i c j d => rfl, rfl, rfl, rfl, fun x y => rfl, fun x y => rfl,
    fun x y => rfl, fun n1 v1 n2 v2 => rfl⟩
  intro a b h
  cases a <;> cases b <;> first | rfl | exact absurd rfl h

/-- Witness for C6 at a concrete cross-variant pair. -/
theorem C6_witness : valueEq (.String "0") (.Number 0) = false :=
  C6_partialeq_variants_model_identity.1 (.String "0") (.Number 0) (by decide)

/-- C7: on a runtime record, `get_property` of an unset key is `none`
(absence, not a failure); `set_property` inserts or overwrites and
affects no other key; and `get_property` immediately after
`set_property` of the same key returns the stored value. -/
theorem C7_struct_get_set_property :
    (∀ n : SharedString, Struct.get_property [] n = none) ∧
    (∀ (s : Struct) (n : SharedString) (v : Value),
      Struct.get_property (Struct.set_property s n v) n = some v) ∧
    (∀ (s : Struct) (n n2 : SharedString) (v : Value), n2 ≠ n →
      Struct.get_property (Struct.set_property s n v) n2 = Struct.get_property s n2) := by
  refine ⟨fun _ => rfl, ?_, ?_⟩
  · intro s n v
    induction s with
    | nil => simp [Struct.set_property, Struct.get_property]
    | cons hd tl ih =>
      obtain ⟨k, w⟩ := hd
      by_cases h1 : n = k
      · simp [Struct.set_property, Struct.get_property, h1]
      · by_cases h2 : keyLt n k = true
        · simp [Struct.set_property, Struct.get_property, h1, h2]
        · simp [Struct.set_property, Struct.get_property, h1, h2, ih]
  · intro s n n2 v hne
    induction s with
    | nil => simp [Struct.set_property, Struct.get_property, hne]
    | cons hd tl ih =>
      obtain ⟨k, w⟩ := hd
      by_cases h1 : n = k
      · subst h1
        simp [Struct.set_property, Struct.get_property, hne]
      · by_cases h2 : keyLt n k = true
        · simp [Struct.set_property, Struct.get_property, h1, h2, hne]
        · simp [Struct.set_property, Struct.get_property, h1, h2, ih]

/-- Witness for C7: overwriting one key leaves the lookup of another key
unchanged. -/
theorem C7_witness :
    Struct.get_property (Struct.set_property [("a", .Void)] "b" (.Number 1)) "a" =
      Struct.get_property [("a", .Void)] "a" :=
  C7_struct_get_set_property.2.2 [("a", .Void)] "b" "a" (.Number 1) (by decide)

/-- C5: a native enumeration member converts to the enumeration-value
variant pairing the exact declared type name with the textual
rendering of the member; back-conversion of an enumeration value succeeds, yielding
the member, exactly when the stored type name equals the expected one
and the member text parses, and in particular it fails on a mismatched
type name even when the member text is a valid member. -/
theorem C5_enum_conversion :
    (∀ m : TextHorizontalAlignment,
      fromTextHorizontalAlignment m = .EnumerationValue "TextHorizontalAlignment" m.display) ∧
    (∀ (e s : SharedString) (m : TextHorizontalAlignment),
      tryIntoTextHorizontalAlignment (.EnumerationValue e s) = .ok m ↔
        e = "TextHorizontalAlignment" ∧ TextHorizontalAlignment.fromStr s = some m) ∧
    (∀ m : TextHorizontalAlignment,
      tryIntoTextHorizontalAlignment (fromTextHorizontalAlignment m) = .ok m) ∧
    tryIntoTextHorizontalAlignment (.EnumerationValue "TextVerticalAlignment" "align_center") =
      .error () := by
  refine ⟨fun m => rfl, ?_, ?_, rfl⟩
  · intro e s m
    by_cases he : e = "TextHorizontalAlignment"
    · cases hf : TextHorizontalAlignment.fromStr s <;>
        simp [tryIntoTextHorizontalAlignment, he, hf]
    · simp [tryIntoTextHorizontalAlignment, he]
  · intro m
    cases m <;> rfl

/-- C9: upgrading a weak instance handle yields a new strong handle to
the same instance exactly while at least one strong handle exists, and
`none` once no strong handle remains; `unwrap` returns the upgraded
handle when the upgrade succeeds and aborts when it fails. -/
theorem C9_weak_upgrade_unwrap :
    ∀ c : ControlBlock,
      (0 < c.strong →
        WeakComponentInstance.upgrade c = some ⟨c.id, c.strong + 1⟩ ∧
        WeakComponentInstance.unwrap c = .ok ⟨c.id, c.strong + 1⟩) ∧
      (c.strong = 0 →
        WeakComponentInstance.upgrade c = none ∧
        WeakComponentInstance.unwrap c = .panic "called Option::unwrap on a None value") := by
  intro c
  constructor
  · intro h
    simp [WeakComponentInstance.upgrade, WeakComponentInstance.unwrap, h]
  · intro h
    simp [WeakComponentInstance.upgrade, WeakComponentInstance.unwrap, h]

/-- Witness for C9: a live instance upgrades, a dead one does not. -/
theorem C9_witness :
    WeakComponentInstance.upgrade ⟨7, 2⟩ = some ⟨7, 3⟩ ∧
    WeakComponentInstance.upgrade ⟨7, 0⟩ = none :=
  ⟨((C9_weak_upgrade_unwrap ⟨7, 2⟩).1 (by decide)).1,
   ((C9_weak_upgrade_unwrap ⟨7, 0⟩).2 rfl).1⟩

/-- C8: `get_property` with an undeclared name returns
`NoSuchProperty`, `set_callback` with an undeclared name returns
`NoSuchCallback`, and the failing `set_callback` leaves the instance
state untouched (`get_property` takes the state immutably). -/
theorem C8_undeclared_name_errors :
    (∀ (desc : ComponentDescription) (st : InstanceState) (name : SharedString),
      assocLookup desc.props name = none →
      ComponentInstance.get_property desc st name = .error .NoSuchProperty) ∧
    (∀ (desc : ComponentDescription) (st : InstanceState) (name : SharedString)
        (cb : List Value → Value),
      name ∉ desc.callbacks →
      ComponentInstance.set_callback desc st name cb = (.error .NoSuchCallback, st)) := by
  constructor
  · intro desc st name h
    simp [ComponentInstance.get_property, descGetProperty, h]
  · intro desc st name cb h
    simp [ComponentInstance.set_callback, descSetCallbackHandler, h]

/-- Witness for C8 on a concrete instance declaring a `count` property
and an `increment` callback. -/
theorem C8_witness :
    ComponentInstance.get_property ⟨[("count", .NumberTy)], ["increment"]⟩
        ⟨[("count", .Number 0)], []⟩ "nonexistent" = .error .NoSuchProperty ∧
    ComponentInstance.set_callback ⟨[("count", .NumberTy)], ["increment"]⟩
        ⟨[("count", .Number 0)], []⟩ "nonexistent" (fun _ => .Void) =
      (.error .NoSuchCallback, ⟨[("count", .Number 0)], []⟩) :=
  ⟨C8_undeclared_name_errors.1 ⟨[("count", .NumberTy)], ["increment"]⟩
      ⟨[("count", .Number 0)], []⟩ "nonexistent" rfl,
   C8_undeclared_name_errors.2 ⟨[("count", .NumberTy)], ["increment"]⟩
      ⟨[("count", .Number 0)], []⟩ "nonexistent" (fun _ => .Void) (by decide)⟩

/-- C1 (code bug): on an instance declaring only a numeric property
`count` and a callback `increment`, `set_property` with an undeclared
name, `set_property` with a type-mismatched value, and
`invoke_callback` with an undeclared name all abort through the `todo!`
macro instead of returning the typed `SetPropertyError` /
`CallCallbackError` results the claim (and the declared error enums)
describe. -/
theorem C1_set_property_invoke_callback_abort :
    ComponentInstance.set_property ⟨[("count", .NumberTy)], ["increment"]⟩
        ⟨[("count", .Number 0)], []⟩ "nonexistent" .Void =
      (.panic "not yet implemented: set_property fails to return the right error type",
        ⟨[("count", .Number 0)], []⟩) ∧
    ComponentInstance.set_property ⟨[("count", .NumberTy)], ["increment"]⟩
        ⟨[("count", .Number 0)], []⟩ "count" (.String "text") =
      (.panic "not yet implemented: set_property fails to return the right error type",
        ⟨[("count", .Number 0)], []⟩) ∧
    ComponentInstance.invoke_callback ⟨[("count", .NumberTy)], ["increment"]⟩
        ⟨[("count", .Number 0)], []⟩ "nonexistent" [] = .panic "not yet implemented" :=
  ⟨rfl, rfl, rfl⟩

/-- Counterexample to C2: the record and enumeration back-conversions
have the unit type as error type, so two failing conversions of
distinct input values produce the identical error payload `()` — the
error cannot be the original value. -/
theorem C2_counterexample :
    tryIntoStandardListViewItem (.Bool true) = .error () ∧
    tryIntoStandardListViewItem (.Number 5) = .error () ∧
    tryIntoTextHorizontalAlignment (.Bool true) = .error () ∧
    Value.Bool true ≠ Value.Number 5 :=
  ⟨rfl, rfl, rfl, fun h => Value.noConfusion h⟩

/-- C2 as amended: the conversions generated by
`declare_value_conversion` (numerics, string, bool, image, struct,
brush, path data, easing curve), the sequence conversion and the color
conversion return the original value unchanged as the error payload
whenever they fail, while the record (struct) conversions, the
enumeration conversions and the `Instant` conversion fail with a unit
error that discards the value. -/
theorem C2_amended_error_payloads :
    (∀ v : Value, (∃ x, tryIntoU32 v = .ok x) ∨ tryIntoU32 v = .error v) ∧
    (∀ v : Value, (∃ x, tryIntoU64 v = .ok x) ∨ tryIntoU64 v = .error v) ∧
    (∀ v : Value, (∃ x, tryIntoI32 v = .ok x) ∨ tryIntoI32 v = .error v) ∧
    (∀ v : Value, (∃ x, tryIntoI64 v = .ok x) ∨ tryIntoI64 v = .error v) ∧
    (∀ v : Value, (∃ x, tryIntoUSize v = .ok x) ∨ tryIntoUSize v = .error v) ∧
    (∀ v : Value, (∃ x, tryIntoISize v = .ok x) ∨ tryIntoISize v = .error v) ∧
    (∀ v : Value, (∃ x, tryIntoF64 v = .ok x) ∨ tryIntoF64 v = .error v) ∧
    (∀ v : Value, (∃ x, tryIntoSharedString v = .ok x) ∨ tryIntoSharedString v = .error v) ∧
    (∀ v : Value, (∃ x, tryIntoBool v = .ok x) ∨ tryIntoBool v = .error v) ∧
    (∀ v : Value, (∃ x, tryIntoImageReference v = .ok x) ∨ tryIntoImageReference v = .error v) ∧
    (∀ v : Value, (∃ x, tryIntoStruct v = .ok x) ∨ tryIntoStruct v = .error v) ∧
    (∀ v : Value, (∃ x, tryIntoBrush v = .ok x) ∨ tryIntoBrush v = .error v) ∧
    (∀ v : Value, (∃ x, tryIntoPathData v = .ok x) ∨ tryIntoPathData v = .error v) ∧
    (∀ v : Value, (∃ x, tryIntoEasingCurve v = .ok x) ∨ tryIntoEasingCurve v = .error v) ∧
    (∀ v : Value, (∃ x, tryIntoVec v = .ok x) ∨ tryIntoVec v = .error v) ∧
    (∀ v : Value, (∃ x, tryIntoColor v = .ok x) ∨ tryIntoColor v = .error v) ∧
    (∀ v : Value, (∃ x, tryIntoStandardListViewItem v = .ok x) ∨
      tryIntoStandardListViewItem v = .error ()) ∧
    (∀ v : Value, (∃ x, tryIntoKeyboardModifiers v = .ok x) ∨
      tryIntoKeyboardModifiers v = .error ()) ∧
    (∀ v : Value, (∃ x, tryIntoTextHorizontalAlignment v = .ok x) ∨
      tryIntoTextHorizontalAlignment v = .error ()) ∧
    (∀ v : Value, (∃ x, tryIntoInstant v = .ok x) ∨ tryIntoInstant v = .error ()) ∧
    (∀ v : Value, (∃ x, tryIntoStateInfo v = .ok x) ∨ tryIntoStateInfo v = .error ()) ∧
    (∀ v : Value, (∃ x, tryIntoKeyEvent v = .ok x) ∨ tryIntoKeyEvent v = .error ()) ∧
    (∀ v : Value, (∃ x, tryIntoKeyEventType v = .ok x) ∨
      tryIntoKeyEventType v = .error ()) := by
  refine ⟨?_, ?_, ?_, ?_, ?_, ?_, ?_, ?_, ?_, ?_, ?_, ?_, ?_, ?_, ?_, ?_, ?_, ?_, ?_, ?_,
    ?_, ?_, ?_⟩ <;> intro v
  case _ => cases v <;> first | exact .inl ⟨_, rfl⟩ | exact .inr rfl
  case _ => cases v <;> first | exact .inl ⟨_, rfl⟩ | exact .inr rfl
  case _ => cases v <;> first | exact .inl ⟨_, rfl⟩ | exact .inr rfl
  case _ => cases v <;> first | exact .inl ⟨_, rfl⟩ | exact .inr rfl
  case _ => cases v <;> first | exact .inl ⟨_, rfl⟩ | exact .inr rfl
  case _ => cases v <;> first | exact .inl ⟨_, rfl⟩ | exact .inr rfl
  case _ => cases v <;> first | exact .inl ⟨_, rfl⟩ | exact .inr rfl
  case _ => cases v <;> first | exact .inl ⟨_, rfl⟩ | exact .inr rfl
  case _ => cases v <;> first | exact .inl ⟨_, rfl⟩ | exact .inr rfl
  case _ => cases v <;> first | exact .inl ⟨_, rfl⟩ | exact .inr rfl
  case _ => cases v <;> first | exact .inl ⟨_, rfl⟩ | exact .inr rfl
  case _ => cases v <;> first | exact .inl ⟨_, rfl⟩ | exact .inr rfl
  case _ => cases v <;> first | exact .inl ⟨_, rfl⟩ | exact .inr rfl
  case _ => cases v <;> first | exact .inl ⟨_, rfl⟩ | exact .inr rfl
  case _ => cases v <;> first | exact .inl ⟨_, rfl⟩ | exact .inr rfl
  case _ =>
    cases v with
    | Brush b => cases b <;> first | exact .inl ⟨_, rfl⟩ | exact .inr rfl
    | _ => exact .inr rfl
  case _ =>
    cases h : tryIntoStandardListViewItem v with
    | ok x => exact .inl ⟨x, rfl⟩
    | error e => cases e; exact .inr rfl
  case _ =>
    cases h : tryIntoKeyboardModifiers v with
    | ok x => exact .inl ⟨x, rfl⟩
    | error e => cases e; exact .inr rfl
  case _ =>
    cases h : tryIntoTextHorizontalAlignment v with
    | ok x => exact .inl ⟨x, rfl⟩
    | error e => cases e; exact .inr rfl
  case _ =>
    cases h : tryIntoInstant v with
    | ok x => exact .inl ⟨x, rfl⟩
    | error e => cases e; exact .inr rfl
  case _ =>
    cases h : tryIntoStateInfo v with
    | ok x => exact .inl ⟨x, rfl⟩
    | error e => cases e; exact .inr rfl
  case _ =>
    cases h : tryIntoKeyEvent v with
    | ok x => exact .inl ⟨x, rfl⟩
    | error e => cases e; exact .inr rfl
  case _ =>
    cases h : tryIntoKeyEventType v with
    | ok x => exact .inl ⟨x, rfl⟩
    | error e => cases e; exact .inr rfl

/-- Rounding to a 53-bit significand fixes every natural number up to
`2 ^ 53`. -/
theorem rnd53_of_le (v : Nat) (h : v ≤ 2 ^ 53) : rnd53 v = v := by
  rcases Nat.lt_or_ge v (2 ^ 53) with hlt | hge
  · unfold rnd53
    rw [if_pos hlt]
  · have hv : v = 2 ^ 53 := Nat.le_antisymm h hge
    subst hv
    decide

/-- Signed rounding fixes every integer of magnitude up to `2 ^ 53`. -/
theorem rnd53Int_of_le (v : Int) (h1 : -(2 ^ 53) ≤ v) (h2 : v ≤ 2 ^ 53) :
    rnd53Int v = v := by
  unfold rnd53Int
  split
  next hp =>
    have h3 := rnd53_of_le v.toNat (by omega)
    omega
  next hp =>
    have h3 := rnd53_of_le (-v).toNat (by omega)
    omega

/-- Truncation toward zero fixes integer-valued floats (natural case). -/
theorem f64trunc_natCast (v : Nat) : f64trunc (v : Rat) = v := by
  unfold f64trunc
  rw [if_pos (by positivity)]
  exact Int.floor_natCast v

/-- Truncation toward zero fixes integer-valued floats (integer case). -/
theorem f64trunc_intCast (v : Int) : f64trunc (v : Rat) = v := by
  unfold f64trunc
  split
  · exact Int.floor_intCast v
  · exact Int.ceil_intCast v

/-- Counterexample to C4: a `StateInfo` whose `change_time` is
`Instant (2 ^ 53 + 1)` converts to a record and back-converts
successfully, but to a different native value — its timestamp passed
through the lossy `Instant` float conversion — refuting the clause
that a record built from the full field set of a native record value
always back-converts to that original value. -/
theorem C4_counterexample :
    tryIntoStateInfo (fromStateInfo ⟨0, 0, ⟨9007199254740993⟩⟩) =
      .ok ⟨0, 0, ⟨9007199254740992⟩⟩ ∧
    StateInfo.mk 0 0 ⟨9007199254740992⟩ ≠ StateInfo.mk 0 0 ⟨9007199254740993⟩ :=
  ⟨rfl, by decide⟩

/-- C4 as amended: for every one of the four embedded native record
types, back-conversion of a record succeeds exactly when every
declared field is present and its stored value converts to the native
field type, and omitting a required field makes the whole conversion
fail with no partial result; a record built from the full field set of
a native value back-converts to that original value for
`StandardListViewItem`, `KeyboardModifiers` and `KeyEvent`, and for
`StateInfo` only when its state fields are in 32-bit range and its
`change_time` tick count is at most `2 ^ 53` (exactly representable in
a 64-bit float) — beyond that bound back-conversion still succeeds but
yields a different native value. -/
theorem C4_amended_record_backconversion :
    (∀ r : StandardListViewItem,
      tryIntoStandardListViewItem (fromStandardListViewItem r) = .ok r) ∧
    (∀ m : KeyboardModifiers,
      tryIntoKeyboardModifiers (fromKeyboardModifiers m) = .ok m) ∧
    (∀ k : KeyEvent, tryIntoKeyEvent (fromKeyEvent k) = .ok k) ∧
    (∀ s : StateInfo, -(2 ^ 31) ≤ s.current_state → s.current_state < 2 ^ 31 →
      -(2 ^ 31) ≤ s.previous_state → s.previous_state < 2 ^ 31 →
      s.change_time.ticks ≤ 2 ^ 53 →
      tryIntoStateInfo (fromStateInfo s) = .ok s) ∧
    (∀ fields : Struct,
      (∃ out, tryIntoStateInfo (.Struct fields) = .ok out) ↔
        ((∃ v i, Struct.get_property fields "current_state" = some v ∧
            tryIntoI32 v = .ok i) ∧
         (∃ v i, Struct.get_property fields "previous_state" = some v ∧
            tryIntoI32 v = .ok i) ∧
         (∃ v t, Struct.get_property fields "change_time" = some v ∧
            tryIntoInstant v = .ok t))) ∧
    (∀ fields : Struct,
      (∃ out, tryIntoKeyEvent (.Struct fields) = .ok out) ↔
        ((∃ v e, Struct.get_property fields "event_type" = some v ∧
            tryIntoKeyEventType v = .ok e) ∧
         (∃ v t, Struct.get_property fields "text" = some v ∧
            tryIntoSharedString v = .ok t) ∧
         (∃ v m, Struct.get_property fields "modifiers" = some v ∧
            tryIntoKeyboardModifiers v = .ok m))) ∧
    (∀ fields : Struct,
      (∃ out, tryIntoStandardListViewItem (.Struct fields) = .ok out) ↔
        (∃ v t, Struct.get_property fields "text" = some v ∧
          tryIntoSharedString v = .ok t)) ∧
    (∀ fields : Struct,
      (∃ out, tryIntoKeyboardModifiers (.Struct fields) = .ok out) ↔
        ((∃ v b, Struct.get_property fields "control" = some v ∧ tryIntoBool v = .ok b) ∧
         (∃ v b, Struct.get_property fields "alt" = some v ∧ tryIntoBool v = .ok b) ∧
         (∃ v b, Struct.get_property fields "shift" = some v ∧ tryIntoBool v = .ok b) ∧
         (∃ v b, Struct.get_property fields "meta" = some v ∧ tryIntoBool v = .ok b))) ∧
    tryIntoKeyboardModifiers
        (.Struct [("alt", .Bool false), ("control", .Bool true), ("shift", .Bool true)]) =
      .error () := by
  refine ⟨fun r => rfl, fun m => rfl, ?_, ?_, ?_, ?_, ?_, ?_, rfl⟩
  · intro k
    obtain ⟨et, t, m⟩ := k
    obtain ⟨c, a, s2, m2⟩ := m
    cases et <;> rfl
  · intro s h1 h2 h3 h4 h5
    obtain ⟨cs, ps, tk0⟩ := s
    obtain ⟨tk⟩ := tk0
    dsimp only at h1 h2 h3 h4 h5
    show (Except.ok (StateInfo.mk (f64toI32 ((rnd53Int cs : Int) : Rat))
        (f64toI32 ((rnd53Int ps : Int) : Rat))
        (Instant.mk (f64toU64 ((rnd53 tk : Nat) : Rat)))) : Except Unit StateInfo) =
      Except.ok (StateInfo.mk cs ps (Instant.mk tk))
    rw [rnd53Int_of_le cs (by omega) (by omega), rnd53Int_of_le ps (by omega) (by omega),
      rnd53_of_le tk h5]
    have g1 : f64toI32 ((cs : Int) : Rat) = cs := by
      simp [f64toI32, f64trunc_intCast]
      omega
    have g2 : f64toI32 ((ps : Int) : Rat) = ps := by
      simp [f64toI32, f64trunc_intCast]
      omega
    have g3 : f64toU64 ((tk : Nat) : Rat) = tk := by
      simp [f64toU64, f64trunc_natCast]
      omega
    rw [g1, g2, g3]
  · intro fields
    cases h1 : Struct.get_property fields "current_state" with
    | none => simp [tryIntoStateInfo, h1]
    | some v1 =>
      cases hc1 : tryIntoI32 v1 with
      | error e => simp [tryIntoStateInfo, h1, hc1]
      | ok i1 =>
        cases h2 : Struct.get_property fields "previous_state" with
        | none => simp [tryIntoStateInfo, h1, hc1, h2]
        | some v2 =>
          cases hc2 : tryIntoI32 v2 with
          | error e => simp [tryIntoStateInfo, h1, hc1, h2, hc2]
          | ok i2 =>
            cases h3 : Struct.get_property fields "change_time" with
            | none => simp [tryIntoStateInfo, h1, hc1, h2, hc2, h3]
            | some v3 =>
              cases hc3 : tryIntoInstant v3 with
              | error e => simp [tryIntoStateInfo, h1, hc1, h2, hc2, h3, hc3]
              | ok t3 => simp [tryIntoStateInfo, h1, hc1, h2, hc2, h3, hc3]
  · intro fields
    cases h1 : Struct.get_property fields "event_type" with
    | none => simp [tryIntoKeyEvent, h1]
    | some v1 =>
      cases hc1 : tryIntoKeyEventType v1 with
      | error e => simp [tryIntoKeyEvent, h1, hc1]
      | ok e1 =>
        cases h2 : Struct.get_property fields "text" with
        | none => simp [tryIntoKeyEvent, h1, hc1, h2]
        | some v2 =>
          cases hc2 : tryIntoSharedString v2 with
          | error e => simp [tryIntoKeyEvent, h1, hc1, h2, hc2]
          | ok t2 =>
            cases h3 : Struct.get_property fields "modifiers" with
            | none => simp [tryIntoKeyEvent, h1, hc1, h2, hc2, h3]
            | some v3 =>
              cases hc3 : tryIntoKeyboardModifiers v3 with
              | error e => simp [tryIntoKeyEvent, h1, hc1, h2, hc2, h3, hc3]
              | ok m3 => simp [tryIntoKeyEvent, h1, hc1, h2, hc2, h3, hc3]
  · intro fields
    cases hg : Struct.get_property fields "text" with
    | none => simp [tryIntoStandardListViewItem, hg]
    | some fv =>
      cases hs : tryIntoSharedString fv with
      | ok t => simp [tryIntoStandardListViewItem, hg, hs]
      | error e => simp [tryIntoStandardListViewItem, hg, hs]
  · intro fields
    cases h1 : Struct.get_property fields "control" with
    | none => simp [tryIntoKeyboardModifiers, h1]
    | some v1 =>
      cases hb1 : tryIntoBool v1 with
      | error e => simp [tryIntoKeyboardModifiers, h1, hb1]
      | ok b1 =>
        cases h2 : Struct.get_property fields "alt" with
        | none => simp [tryIntoKeyboardModifiers, h1, hb1, h2]
        | some v2 =>
          cases hb2 : tryIntoBool v2 with
          | error e => simp [tryIntoKeyboardModifiers, h1, hb1, h2, hb2]
          | ok b2 =>
            cases h3 : Struct.get_property fields "shift" with
            | none => simp [tryIntoKeyboardModifiers, h1, hb1, h2, hb2, h3]
            | some v3 =>
              cases hb3 : tryIntoBool v3 with
              | error e => simp [tryIntoKeyboardModifiers, h1, hb1, h2, hb2, h3, hb3]
              | ok b3 =>
                cases h4 : Struct.get_property fields "meta" with
                | none => simp [tryIntoKeyboardModifiers, h1, hb1, h2, hb2, h3, hb3, h4]
                | some v4 =>
                  cases hb4 : tryIntoBool v4 with
                  | error e =>
                    simp [tryIntoKeyboardModifiers, h1, hb1, h2, hb2, h3, hb3, h4, hb4]
                  | ok b4 =>
                    simp [tryIntoKeyboardModifiers, h1, hb1, h2, hb2, h3, hb3, h4, hb4]

/-- Witness for C4 at a concrete in-range `StateInfo`. -/
theorem C4_witness :
    tryIntoStateInfo (fromStateInfo ⟨5, -3, ⟨1000⟩⟩) = .ok ⟨5, -3, ⟨1000⟩⟩ :=
  C4_amended_record_backconversion.2.2.2.1 ⟨5, -3, ⟨1000⟩⟩ (by decide) (by decide)
    (by decide) (by decide) (by decide)

/-- Counterexample to C3: the 64-bit value `2 ^ 53 + 1` is not exactly
representable in a 64-bit float, so its conversion to a dynamic value
and back yields `2 ^ 53`, not the original value. -/
theorem C3_counterexample :
    tryIntoU64 (fromU64 9007199254740993) = .ok 9007199254740992 ∧
    (9007199254740992 : Nat) ≠ 9007199254740993 :=
  ⟨rfl, by decide⟩

/-- C3 as amended: converting a native value to a dynamic value and
back succeeds and reproduces the value for strings, booleans, images,
brushes, path data, easing curves and `f64` payloads unconditionally,
for `u32`/`i32` over their whole range, and for the 64-bit integer
types (`u64`, `i64`, and `usize`/`isize` modelled at 64 bits) whenever
the magnitude is at most `2 ^ 53`, i.e. exactly representable in a
64-bit float; 64-bit integer values above that bound can round. -/
theorem C3_amended_roundtrip :
    (∀ v : Nat, v ≤ 2 ^ 53 → tryIntoU64 (fromU64 v) = .ok v) ∧
    (∀ v : Nat, v ≤ 2 ^ 53 → tryIntoUSize (fromUSize v) = .ok v) ∧
    (∀ v : Nat, v < 2 ^ 32 → tryIntoU32 (fromU32 v) = .ok v) ∧
    (∀ v : Int, -(2 ^ 53) ≤ v → v ≤ 2 ^ 53 → tryIntoI64 (fromI64 v) = .ok v) ∧
    (∀ v : Int, -(2 ^ 53) ≤ v → v ≤ 2 ^ 53 → tryIntoISize (fromISize v) = .ok v) ∧
    (∀ v : Int, -(2 ^ 31) ≤ v → v < 2 ^ 31 → tryIntoI32 (fromI32 v) = .ok v) ∧
    (∀ v : Rat, tryIntoF64 (fromF64 v) = .ok v) ∧
    (∀ v : SharedString, tryIntoSharedString (fromSharedString v) = .ok v) ∧
    (∀ v : Bool, tryIntoBool (fromBool v) = .ok v) ∧
    (∀ v : ImageReference, tryIntoImageReference (fromImageReference v) = .ok v) ∧
    (∀ v : Brush, tryIntoBrush (fromBrush v) = .ok v) ∧
    (∀ v : PathData, tryIntoPathData (fromPathData v) = .ok v) ∧
    (∀ v : EasingCurve, tryIntoEasingCurve (fromEasingCurve v) = .ok v) := by
  have hu64 : ∀ v : Nat, v ≤ 2 ^ 53 → tryIntoU64 (fromU64 v) = .ok v := by
    intro v h
    simp [fromU64, tryIntoU64, rnd53_of_le v h, f64toU64, f64trunc_natCast]
    omega
  have hi64 : ∀ v : Int, -(2 ^ 53) ≤ v → v ≤ 2 ^ 53 → tryIntoI64 (fromI64 v) = .ok v := by
    intro v h1 h2
    simp [fromI64, tryIntoI64, rnd53Int_of_le v h1 h2, f64toI64, f64trunc_intCast]
    omega
  refine ⟨hu64, hu64, ?_, hi64, hi64, ?_, fun v => rfl, fun v => rfl, fun v => rfl,
    fun v => rfl, fun v => rfl, fun v => rfl, fun v => rfl⟩
  · intro v h
    have h53 : v ≤ 2 ^ 53 := le_trans (Nat.le_of_lt h) (by norm_num)
    simp [fromU32, tryIntoU32, rnd53_of_le v h53, f64toU32, f64trunc_natCast]
    omega
  · intro v h1 h2
    have h1a : -(2 ^ 53) ≤ v := le_trans (by norm_num) h1
    have h2a : v ≤ 2 ^ 53 := le_trans (Int.le_of_lt h2) (by norm_num)
    simp [fromI32, tryIntoI32, rnd53Int_of_le v h1a h2a, f64toI32, f64trunc_intCast]
    omega

/-- Witness for C3 at concrete in-range values. -/
theorem C3_witness :
    tryIntoU64 (fromU64 4096) = .ok 4096 ∧ tryIntoI64 (fromI64 (-4096)) = .ok (-4096) :=
  ⟨C3_amended_roundtrip.1 4096 (by norm_num),
   C3_amended_roundtrip.2.2.2.1 (-4096) (by norm_num) (by norm_num)⟩

end SixtyFPS
